import Mathlib

/-!
# Verification of the `execute-block` replay flow of try-runtime-cli

Shallow embedding of `core/src/commands/execute_block.rs` and
`core/src/inherents/custom_idps.rs`.  Bytes are modelled as `Nat` (values
below 256 where produced by our encoders), block hashes as `Nat` values
(the hex-string plumbing of the CLI is abstracted away: a block identifier
is the hash value itself), and the SCALE binary codec of the external
`parity-scale-codec` collaborator is modelled concretely for the types the
payload needs (little-endian fixed-width integers, compact length
prefixes, length-prefixed byte strings, vectors, booleans, tagged unions).
-/

namespace TryRuntime

/-! ## SCALE-style binary codec (model of the external encoding collaborator)

Modelled from the spec: the binary encoder is an external collaborator
(`encode(value) -> bytes`, a "stable binary scheme"); we model it as the
SCALE wire format restricted to the types appearing in the call payload. -/

/-- Little-endian fixed-width encoding: `w` bytes of `n`. -/
def encodeLE : Nat → Nat → List Nat
  | 0, _ => []
  | w + 1, n => n % 256 :: encodeLE w (n / 256)

/-- Little-endian fixed-width decoding: read `w` bytes, return the value and
the remaining input. -/
def decodeLE : Nat → List Nat → Option (Nat × List Nat)
  | 0, bs => some (0, bs)
  | _ + 1, [] => none
  | w + 1, b :: bs =>
    match decodeLE w bs with
    | some (n, rest) => some (b + 256 * n, rest)
    | none => none

/-- SCALE compact encoding of a length/count (single-byte, two-byte and
four-byte modes; values below `2^30`). -/
def encodeCompact (n : Nat) : List Nat :=
  if n < 64 then [4 * n]
  else if n < 16384 then encodeLE 2 (4 * n + 1)
  else encodeLE 4 (4 * n + 2)

/-- SCALE compact decoding (mode chosen by the low two bits of the first
byte; the big-integer mode is not produced by `encodeCompact` and is
rejected). -/
def decodeCompact : List Nat → Option (Nat × List Nat)
  | [] => none
  | b :: bs =>
    if b % 4 = 0 then some (b / 4, bs)
    else if b % 4 = 1 then
      match bs with
      | b2 :: rest => some ((b + 256 * b2) / 4, rest)
      | [] => none
    else if b % 4 = 2 then
      match bs with
      | b2 :: b3 :: b4 :: rest =>
        some ((b + 256 * b2 + 65536 * b3 + 16777216 * b4) / 4, rest)
      | _ => none
    else none

/-- SCALE boolean: one byte, `0` or `1`. -/
def encodeBool (b : Bool) : List Nat := [if b then 1 else 0]

/-- Decode a SCALE boolean. -/
def decodeBool : List Nat → Option (Bool × List Nat)
  | 0 :: rest => some (false, rest)
  | 1 :: rest => some (true, rest)
  | _ => none

/-- SCALE byte string: compact length prefix followed by the raw bytes. -/
def encodeBytes (bs : List Nat) : List Nat := encodeCompact bs.length ++ bs

/-- Decode a SCALE byte string. -/
def decodeBytes (input : List Nat) : Option (List Nat × List Nat) :=
  match decodeCompact input with
  | some (len, rest) =>
    if len ≤ rest.length then some (rest.take len, rest.drop len) else none
  | none => none

/-- SCALE vector: compact count followed by the element encodings. -/
def encodeVec {α : Type} (enc : α → List Nat) (xs : List α) : List Nat :=
  encodeCompact xs.length ++ (xs.map enc).flatten

/-- Decode exactly `n` elements with the element decoder `dec`. -/
def decodeCount {α : Type} (dec : List Nat → Option (α × List Nat)) :
    Nat → List Nat → Option (List α × List Nat)
  | 0, bs => some ([], bs)
  | n + 1, bs =>
    (dec bs).bind fun pr1 =>
    (decodeCount dec n pr1.2).bind fun pr2 =>
    some (pr1.1 :: pr2.1, pr2.2)

/-- Decode a SCALE vector. -/
def decodeVec {α : Type} (dec : List Nat → Option (α × List Nat))
    (input : List Nat) : Option (List α × List Nat) :=
  match decodeCompact input with
  | some (len, rest) => decodeCount dec len rest
  | none => none

/-! ## Blocks and headers (model of the external `sp_runtime` block types)

A digest item and an extrinsic are opaque byte strings; a hash is a `Nat`
below `2^256`, encoded as 32 little-endian bytes. -/

/-- Block header: parent hash, number, state root, extrinsics root and the
digest (a list of opaque digest items). -/
structure Header where
  parent_hash : Nat
  number : Nat
  state_root : Nat
  extrinsics_root : Nat
  digest : List (List Nat)
  deriving DecidableEq, Repr, Inhabited

/-- A block: a header plus the list of (opaque) extrinsics. -/
structure Block where
  header : Header
  extrinsics : List (List Nat)
  deriving DecidableEq, Repr, Inhabited

/-- `Block::deconstruct` of `sp_runtime`: split a block into header and
extrinsics. -/
def Block.deconstruct (b : Block) : Header × List (List Nat) :=
  (b.header, b.extrinsics)

/-- `Block::new` of `sp_runtime`: rebuild a block from header and
extrinsics. -/
def Block.new (h : Header) (xts : List (List Nat)) : Block :=
  { header := h, extrinsics := xts }

/-- SCALE encoding of a header: parent hash, compact number, state root,
extrinsics root, digest vector. -/
def encodeHeader (h : Header) : List Nat :=
  encodeLE 32 h.parent_hash ++ encodeCompact h.number ++
    encodeLE 32 h.state_root ++ encodeLE 32 h.extrinsics_root ++
    encodeVec encodeBytes h.digest

/-- Decode a SCALE header. -/
def decodeHeader (input : List Nat) : Option (Header × List Nat) :=
  (decodeLE 32 input).bind fun pr1 =>
  (decodeCompact pr1.2).bind fun pr2 =>
  (decodeLE 32 pr2.2).bind fun pr3 =>
  (decodeLE 32 pr3.2).bind fun pr4 =>
  (decodeVec decodeBytes pr4.2).bind fun pr5 =>
  some (⟨pr1.1, pr2.1, pr3.1, pr4.1, pr5.1⟩, pr5.2)

/-- SCALE encoding of a block: header then extrinsics vector. -/
def encodeBlock (b : Block) : List Nat :=
  encodeHeader b.header ++ encodeVec encodeBytes b.extrinsics

/-- Decode a SCALE block. -/
def decodeBlock (input : List Nat) : Option (Block × List Nat) :=
  (decodeHeader input).bind fun pr1 =>
  (decodeVec decodeBytes pr1.2).bind fun pr2 =>
  some (⟨pr1.1, pr2.1⟩, pr2.2)

/-! ## The try-state selector

Modelled from the spec: `TryStateSelector` is a tagged union
`All | None | Pallets(set of names) | RoundRobin(count)` of the external
`frame_try_runtime` collaborator; pallet names are opaque byte strings and
the round-robin count is a 32-bit integer. -/

/-- Which runtime invariants the execution engine checks after applying the
block.  Opaque to this core: constructed and forwarded, never interpreted. -/
inductive TryStateSelect
  | all : TryStateSelect
  | none : TryStateSelect
  | pallets : List (List Nat) → TryStateSelect
  | roundRobin : Nat → TryStateSelect
  deriving DecidableEq, Repr, Inhabited

/-- SCALE encoding of the selector: a tag byte followed by the variant
payload. -/
def encodeSelect : TryStateSelect → List Nat
  | TryStateSelect.all => [0]
  | TryStateSelect.none => [1]
  | TryStateSelect.pallets names => 2 :: encodeVec encodeBytes names
  | TryStateSelect.roundRobin n => 3 :: encodeLE 4 n

/-- Decode a SCALE selector. -/
def decodeSelect : List Nat → Option (TryStateSelect × List Nat)
  | 0 :: rest => some (TryStateSelect.all, rest)
  | 1 :: rest => some (TryStateSelect.none, rest)
  | 2 :: rest =>
    (decodeVec decodeBytes rest).bind fun pr =>
      some (TryStateSelect.pallets pr.1, pr.2)
  | 3 :: rest =>
    (decodeLE 4 rest).bind fun pr =>
      some (TryStateSelect.roundRobin pr.1, pr.2)
  | _ => none

/-! ## The call payload -/

/-- The assembled call payload: the fixed-order SCALE encoding of the tuple
`(block, state_root_check, signature_check, try_state)` — the `.encode()`
call of `execute_block.rs`. -/
def encodePayload (b : Block) (state_root_check signature_check : Bool)
    (sel : TryStateSelect) : List Nat :=
  encodeBlock b ++ encodeBool state_root_check ++
    encodeBool signature_check ++ encodeSelect sel

/-- Decode a call payload back into the tuple. -/
def decodePayload (input : List Nat) :
    Option ((Block × Bool × Bool × TryStateSelect) × List Nat) :=
  (decodeBlock input).bind fun pr1 =>
  (decodeBool pr1.2).bind fun pr2 =>
  (decodeBool pr2.2).bind fun pr3 =>
  (decodeSelect pr3.2).bind fun pr4 =>
  some ((pr1.1, pr2.1, pr3.1, pr4.1), pr4.2)

/-! ## Well-formedness bounds

The numeric fields of real blocks are fixed-width machine integers and the
collections have `u32`-bounded lengths; the `Nat`-valued model records those
bounds as explicit predicates. -/

/-- Header fields within their machine-width bounds. -/
def wfHeader (h : Header) : Prop :=
  h.parent_hash < 2 ^ 256 ∧ h.number < 2 ^ 30 ∧ h.state_root < 2 ^ 256 ∧
    h.extrinsics_root < 2 ^ 256 ∧ h.digest.length < 2 ^ 30 ∧
    ∀ d ∈ h.digest, d.length < 2 ^ 30

/-- Block fields within their machine-width bounds. -/
def wfBlock (b : Block) : Prop :=
  wfHeader b.header ∧ b.extrinsics.length < 2 ^ 30 ∧
    ∀ e ∈ b.extrinsics, e.length < 2 ^ 30

/-- Selector payload within its machine-width bounds. -/
def wfSelect : TryStateSelect → Prop
  | TryStateSelect.pallets names =>
    names.length < 2 ^ 30 ∧ ∀ p ∈ names, p.length < 2 ^ 30
  | TryStateSelect.roundRobin n => n < 2 ^ 32
  | _ => True

instance : DecidablePred wfHeader := fun h => by
  unfold wfHeader; infer_instance

instance : DecidablePred wfBlock := fun b => by
  unfold wfBlock; infer_instance

instance : DecidablePred wfSelect := fun s => by
  cases s <;> (unfold wfSelect; infer_instance)

/-! ## Block normalization (lines 150–154 of `execute_block.rs`) -/

/-- `NormalizeBlock`: deconstruct the fetched block, pop the last digest
item (`header.digest_mut().pop()`), and re-assemble the block. -/
def normalizeBlock (block : Block) : Block :=
  let pr := block.deconstruct
  let header := pr.1
  let extrinsics := pr.2
  let header := { header with digest := header.digest.dropLast }
  Block.new header extrinsics

/-! ## State specifications and runtime checks

Modelled from the spec: `LiveState`, `State` and `RuntimeChecks` live in the
repository's `state.rs`, which is not among the provided sources; the field
names follow their uses in `execute_block.rs` and the spec's data model
(`Live { uri, at, pallet filter, hashed key-prefix filter, child-tree flag }`,
`Snapshot { path }`). -/

/-- A live remote state specification.  `at` is the optional block
identifier (the hash value; the CLI's hex-string form is abstracted). -/
structure LiveState where
  uri : String
  «at» : Option Nat
  pallet : List String
  hashed_prefixes : List String
  child_tree : Bool
  deriving DecidableEq, Repr, Inhabited

/-- The state type: a live remote source or a local snapshot. -/
inductive State
  | live : LiveState → State
  | snap : String → State
  deriving DecidableEq, Repr, Inhabited

/-- The three runtime-compatibility switches applied when building
externalities. -/
structure RuntimeChecks where
  name_matches : Bool
  version_increases : Bool
  try_runtime_feature_enabled : Bool
  deriving DecidableEq, Repr, Inhabited

/-- Modelled from the spec: the shared CLI parameters, restricted to the
fields `execute_block.rs` reads (`disable_spec_name_check`,
`export_proof`). -/
structure SharedParams where
  disable_spec_name_check : Bool
  export_proof : Bool
  deriving DecidableEq, Repr, Inhabited

/-- The `execute-block` command configuration (`Command` of
`execute_block.rs`). -/
structure Command where
  try_state : TryStateSelect
  block_ws_uri : Option String
  state : State
  deriving DecidableEq, Repr, Inhabited

/-- Message of the `panic!` in `Command::block_ws_uri`. -/
def uriRequiredMsg : String :=
  "either `--block-uri` must be provided, or state must be `live`"

/-- Message of the `unreachable!` for non-live state in `run`. -/
def liveOnlyMsg : String :=
  "execute block currently only supports Live state"

/-- Message of the `.expect` on the block query in `run`. -/
def blockExistsMsg : String :=
  "header exists, block should also exist; qed"

/-- `Command::block_ws_uri` (lines 71–83 of `execute_block.rs`): the
explicit flag wins for either state variant; a live state supplies its own
uri; a snapshot without the flag panics.  `Except.error` marks a panic. -/
def Command.resolve_block_ws_uri (c : Command) : Except String String :=
  match c.block_ws_uri, c.state with
  | some block_ws_uri, State.snap _ => Except.ok block_ws_uri
  | some block_ws_uri, State.live _ => Except.ok block_ws_uri
  | Option.none, State.live ls => Except.ok ls.uri
  | Option.none, State.snap _ => Except.error uriRequiredMsg

/-! ## The chain environment and the observable behaviour of `run` -/

/-- The remote chain, as seen over the RPC connection: the best header
(answer to a header query with no argument), headers and blocks keyed by
hash (finite association lists), and the header-hash function. -/
structure ChainEnv where
  bestHeader : Header
  headers : List (Nat × Header)
  blocks : List (Nat × Block)
  headerHash : Header → Nat

/-- Look up a header by hash. -/
def lookupHeader (env : ChainEnv) (h : Nat) : Option Header :=
  (env.headers.find? fun p => p.1 == h).map Prod.snd

/-- Look up a block by hash. -/
def lookupBlock (env : ChainEnv) (h : Nat) : Option Block :=
  (env.blocks.find? fun p => p.1 == h).map Prod.snd

/-- One observable network interaction of the flow. -/
inductive NetEvent
  | wsConnect : String → NetEvent
  | headerQuery : Option Nat → NetEvent
  | blockQuery : Nat → NetEvent
  | stateFetch : Nat → NetEvent
  deriving DecidableEq, Repr

/-- Error values the flow can return (as opposed to panics). -/
inductive RunError
  | unsupported : RunError
  | configurationError : RunError
  | stateUnavailable : RunError
  | missingAt : RunError
  deriving DecidableEq, Repr

/-- The data assembled by a successful run, as handed to the execution
invoker. -/
structure RunResult where
  resolvedLiveState : LiveState
  executeAt : Nat
  prevState : LiveState
  runtimeChecks : RuntimeChecks
  entryPoint : String
  fetchedBlock : Block
  normalizedBlock : Block
  payload : List Nat
  deriving DecidableEq, Repr, Inhabited

/-- Outcome of the flow: success, a returned error value, or a panic. -/
inductive RunOutcome
  | ok : RunResult → RunOutcome
  | err : RunError → RunOutcome
  | panicked : String → RunOutcome
  deriving DecidableEq, Repr

/-- Entry point name passed to the execution invoker. -/
def entryPointName : String := "TryRuntime_execute_block"

/-- Lines 100–125 of `execute_block.rs`: if `--at` was provided keep the
user's live state unchanged; otherwise query the best header (header query
with no argument) and rebuild the live state with the resolved uri, the
best header's hash, and default (empty) filters. -/
def resolveLive (env : ChainEnv) (block_ws_uri : String) (ls : LiveState) :
    List NetEvent × LiveState :=
  match ls.«at» with
  | some _ => ([], ls)
  | Option.none =>
    let header := env.bestHeader
    ([NetEvent.headerQuery Option.none],
     { uri := block_ws_uri
       «at» := some (env.headerHash header)
       pallet := []
       hashed_prefixes := []
       child_tree := false })

/-- `run` of `execute_block.rs`: resolve the uri, open the ws connection,
resolve the live state (rejecting non-live state with a panic), derive the
previous-block live state, build externalities with the runtime checks,
fetch the block to execute, normalize it, and assemble the payload.

The previous-block derivation (`to_prev_block_live_state`) and the
externalities build (`to_ext`) live in `state.rs`, not among the provided
sources; they are modelled from the spec: the former fetches the header at
the resolved identifier and moves `at` to its parent hash ("derive the
state spec for block N-1"), the latter fetches the state at that baseline
(one network event) and applies the runtime checks. -/
def run (env : ChainEnv) (shared : SharedParams) (command : Command) :
    List NetEvent × RunOutcome :=
  match command.resolve_block_ws_uri with
  | Except.error msg => ([], RunOutcome.panicked msg)
  | Except.ok block_ws_uri =>
    let events0 := [NetEvent.wsConnect block_ws_uri]
    match command.state with
    | State.snap _ => (events0, RunOutcome.panicked liveOnlyMsg)
    | State.live ls =>
      let resolved := resolveLive env block_ws_uri ls
      let events1 := events0 ++ resolved.1
      let live_state := resolved.2
      match live_state.«at» with
      | Option.none => (events1, RunOutcome.err RunError.missingAt)
      | some execute_at =>
        let events2 := events1 ++ [NetEvent.headerQuery (some execute_at)]
        match lookupHeader env execute_at with
        | Option.none => (events2, RunOutcome.err RunError.stateUnavailable)
        | some header =>
          let prev_block_live_state :=
            { live_state with «at» := some header.parent_hash }
          let runtime_checks : RuntimeChecks :=
            { name_matches := !shared.disable_spec_name_check
              version_increases := false
              try_runtime_feature_enabled := true }
          let events3 := events2 ++ [NetEvent.stateFetch header.parent_hash]
          let events4 := events3 ++ [NetEvent.blockQuery execute_at]
          match lookupBlock env execute_at with
          | Option.none => (events4, RunOutcome.panicked blockExistsMsg)
          | some block =>
            let nblock := normalizeBlock block
            let state_root_check := false
            let signature_check := false
            let payload :=
              encodePayload nblock state_root_check signature_check
                command.try_state
            (events4, RunOutcome.ok
              { resolvedLiveState := live_state
                executeAt := execute_at
                prevState := prev_block_live_state
                runtimeChecks := runtime_checks
                entryPoint := entryPointName
                fetchedBlock := block
                normalizedBlock := nblock
                payload := payload })

/-- A well-formed chain: whenever a known header's parent is also known,
the child's number is the parent's number plus one. -/
def chainWF (env : ChainEnv) : Prop :=
  ∀ p ∈ env.headers, ∀ q ∈ env.headers,
    p.2.parent_hash = q.1 → p.2.number = q.2.number + 1

instance (env : ChainEnv) : Decidable (chainWF env) := by
  unfold chainWF; infer_instance

/-! ## Custom inherent data providers (`custom_idps.rs`)

The external `polkadot_primitives::InherentData` payload and the
`sp_inherents::InherentData` container are modelled with opaque element
types; identifiers are strings (the real eight-byte identifier
`parachn0`). -/

/-- The parachains inherent payload (`polkadot_primitives::InherentData`):
bitfields, backed candidates and disputes are opaque elements. -/
structure ParasInherentData where
  bitfields : List Nat
  backed_candidates : List Nat
  disputes : List Nat
  parent_header : Header
  deriving DecidableEq, Repr, Inhabited

/-- The parachains inherent identifier. -/
def PARACHAINS_INHERENT_IDENTIFIER : String := "parachn0"

/-- The inherent-data container (`sp_inherents::InherentData`): an ordered
association of identifiers to payloads. -/
structure InherentData where
  data : List (String × ParasInherentData)
  deriving DecidableEq, Repr, Inhabited

/-- `InherentData::put_data`: inserting under an identifier that is already
present is an error, not an overwrite. -/
def InherentData.put_data (d : InherentData) (id : String)
    (v : ParasInherentData) : Except String InherentData :=
  if (d.data.find? fun p => p.1 == id).isSome then
    Except.error "inherent with same identifier already exists"
  else
    Except.ok { data := d.data ++ [(id, v)] }

/-- `InherentData::get_data` restricted to the parachains payload
(`para_inherent_data` of `custom_idps.rs`): look up the identifier and
return the stored parent header. -/
def InherentData.para_inherent_data (d : InherentData) :
    Option ParasInherentData :=
  (d.data.find? fun p => p.1 == PARACHAINS_INHERENT_IDENTIFIER).map Prod.snd

/-- `ParaInherentDataProvider` of `custom_idps.rs`: holds only the parent
header it was constructed with. -/
structure ParaInherentDataProvider where
  parent_header : Header
  deriving DecidableEq, Repr, Inhabited

/-- `ParaInherentDataProvider::provide_inherent_data`: inject the parachains
inherent with empty bitfields, empty backed candidates, empty disputes, and
exactly the provider's parent header. -/
def ParaInherentDataProvider.provide_inherent_data
    (p : ParaInherentDataProvider) (inherent_data : InherentData) :
    Except String InherentData :=
  let para_data : ParasInherentData :=
    { bitfields := []
      backed_candidates := []
      disputes := []
      parent_header := p.parent_header }
  inherent_data.put_data PARACHAINS_INHERENT_IDENTIFIER para_data

/-- `ParaInherentDataProvider::try_handle_error`: always declines. -/
def ParaInherentDataProvider.try_handle_error
    (_ : ParaInherentDataProvider) (_ : String) (_ : List Nat) :
    Option (Except String Unit) :=
  Option.none

/-! ## Concrete instances used by the witnesses -/

/-- A parent header for the concrete chain. -/
def hdr99 : Header :=
  { parent_hash := 98, number := 99, state_root := 11, extrinsics_root := 12
    digest := [[9]] }

/-- The best header of the concrete chain; its hash (under `Header.number`
as the hash function) is `100`. -/
def hdr100 : Header :=
  { parent_hash := 99, number := 100, state_root := 13, extrinsics_root := 14
    digest := [[1], [2]] }

/-- The block at the concrete best header. -/
def block100 : Block := { header := hdr100, extrinsics := [[5], [6, 7]] }

/-- Concrete chain environment: headers `99` and `100`, block `100`, block
numbers serving as hashes. -/
def env0 : ChainEnv :=
  { bestHeader := hdr100
    headers := [(100, hdr100), (99, hdr99)]
    blocks := [(100, block100)]
    headerHash := Header.number }

/-- Concrete shared parameters (spec-name check enabled). -/
def shared0 : SharedParams :=
  { disable_spec_name_check := false, export_proof := false }

/-- A live state with no explicit block identifier and some user filters. -/
def lsNoAt : LiveState :=
  { uri := "ws://localhost:9944", «at» := Option.none
    pallet := ["System"], hashed_prefixes := ["0xab"], child_tree := true }

/-- A live state with an explicit block identifier and some user filters. -/
def lsAt100 : LiveState :=
  { uri := "ws://localhost:9944", «at» := some 100
    pallet := ["System"], hashed_prefixes := ["0xab"], child_tree := true }

/-- Command: live state, no `--at`, no explicit `--block-ws-uri`. -/
def cmdNoAt : Command :=
  { try_state := TryStateSelect.all, block_ws_uri := Option.none
    state := State.live lsNoAt }

/-- Command: live state with `--at`, no explicit `--block-ws-uri`. -/
def cmdAt100 : Command :=
  { try_state := TryStateSelect.all, block_ws_uri := Option.none
    state := State.live lsAt100 }

/-- Command: snapshot state with an explicit `--block-ws-uri`. -/
def cmdSnapUri : Command :=
  { try_state := TryStateSelect.all, block_ws_uri := some "ws://127.0.0.1:9944"
    state := State.snap "snap.bin" }

/-- Command: snapshot state without an explicit `--block-ws-uri`. -/
def cmdSnapNoUri : Command :=
  { try_state := TryStateSelect.all, block_ws_uri := Option.none
    state := State.snap "snap.bin" }

/-- A block with an empty header digest. -/
def blockNoDigest : Block :=
  { header := { parent_hash := 1, number := 2, state_root := 3
                extrinsics_root := 4, digest := [] }
    extrinsics := [[5]] }

/-- The events of the concrete no-`--at` run. -/
def evsNoAt : List NetEvent := (run env0 shared0 cmdNoAt).1

/-- The result of the concrete no-`--at` run (it succeeds). -/
def resNoAt : RunResult :=
  match (run env0 shared0 cmdNoAt).2 with
  | RunOutcome.ok r => r
  | _ => default

/-- The events of the concrete `--at 100` run. -/
def evsAt100 : List NetEvent := (run env0 shared0 cmdAt100).1

/-- The result of the concrete `--at 100` run (it succeeds). -/
def resAt100 : RunResult :=
  match (run env0 shared0 cmdAt100).2 with
  | RunOutcome.ok r => r
  | _ => default

/-! ## Codec round-trip lemmas -/

theorem encodeLE_two (m : Nat) : encodeLE 2 m = [m % 256, m / 256 % 256] := rfl

theorem encodeLE_four (m : Nat) :
    encodeLE 4 m =
      [m % 256, m / 256 % 256, m / 256 / 256 % 256, m / 256 / 256 / 256 % 256] :=
  rfl

theorem decodeLE_encodeLE (w n : Nat) (rest : List Nat) (h : n < 256 ^ w) :
    decodeLE w (encodeLE w n ++ rest) = some (n, rest) := by
  induction w generalizing n with
  | zero =>
    have hn : n = 0 := by simpa using h
    subst hn
    simp [encodeLE, decodeLE]
  | succ w ih =>
    have hlt : n / 256 < 256 ^ w := by
      have h256 : (256 : Nat) ^ (w + 1) = 256 ^ w * 256 := by rw [pow_succ]
      rw [h256] at h
      omega
    simp only [encodeLE, decodeLE, List.cons_append, List.append_eq]
    rw [ih (n / 256) hlt]
    simp only [Option.some.injEq, Prod.mk.injEq, and_true]
    omega

theorem decodeCompact_encodeCompact (n : Nat) (rest : List Nat)
    (h : n < 2 ^ 30) : decodeCompact (encodeCompact n ++ rest) = some (n, rest) := by
  unfold encodeCompact
  by_cases h1 : n < 64
  · rw [if_pos h1]
    simp only [List.cons_append, decodeCompact]
    rw [if_pos (by omega : 4 * n % 4 = 0)]
    have h4 : 4 * n / 4 = n := by omega
    rw [h4, List.nil_append]
  · rw [if_neg h1]
    by_cases h2 : n < 16384
    · rw [if_pos h2, encodeLE_two]
      simp only [List.cons_append, decodeCompact]
      rw [if_neg (by omega), if_pos (by omega : (4 * n + 1) % 256 % 4 = 1)]
      have hv : ((4 * n + 1) % 256 + 256 * ((4 * n + 1) / 256 % 256)) / 4 = n := by
        omega
      rw [hv, List.nil_append]
    · rw [if_neg h2, encodeLE_four]
      simp only [List.cons_append, decodeCompact]
      rw [if_neg (by omega), if_neg (by omega),
        if_pos (by omega : (4 * n + 2) % 256 % 4 = 2)]
      have hv : ((4 * n + 2) % 256 + 256 * ((4 * n + 2) / 256 % 256) +
          65536 * ((4 * n + 2) / 256 / 256 % 256) +
          16777216 * ((4 * n + 2) / 256 / 256 / 256 % 256)) / 4 = n := by
        omega
      rw [hv, List.nil_append]

theorem decodeBool_encodeBool (b : Bool) (rest : List Nat) :
    decodeBool (encodeBool b ++ rest) = some (b, rest) := by
  cases b <;> rfl

theorem decodeBytes_encodeBytes (bs rest : List Nat) (h : bs.length < 2 ^ 30) :
    decodeBytes (encodeBytes bs ++ rest) = some (bs, rest) := by
  unfold encodeBytes decodeBytes
  rw [List.append_assoc, decodeCompact_encodeCompact _ _ h]
  simp only []
  rw [if_pos (by simp)]
  rw [List.take_left, List.drop_left]

theorem decodeCount_encode {α : Type} (enc : α → List Nat)
    (dec : List Nat → Option (α × List Nat)) (xs : List α) (rest : List Nat)
    (helem : ∀ x ∈ xs, ∀ r, dec (enc x ++ r) = some (x, r)) :
    decodeCount dec xs.length ((xs.map enc).flatten ++ rest) = some (xs, rest) := by
  induction xs with
  | nil => simp [decodeCount]
  | cons x xs ih =>
    simp only [List.map_cons, List.flatten_cons, List.length_cons,
      List.append_assoc]
    simp only [decodeCount]
    rw [helem x (by simp) _]
    simp only [Option.some_bind]
    rw [ih (fun y hy r => helem y (by simp [hy]) r)]
    simp only [Option.some_bind]

theorem decodeVec_encodeVec {α : Type} (enc : α → List Nat)
    (dec : List Nat → Option (α × List Nat)) (xs : List α) (rest : List Nat)
    (hlen : xs.length < 2 ^ 30)
    (helem : ∀ x ∈ xs, ∀ r, dec (enc x ++ r) = some (x, r)) :
    decodeVec dec (encodeVec enc xs ++ rest) = some (xs, rest) := by
  unfold encodeVec decodeVec
  rw [List.append_assoc, decodeCompact_encodeCompact _ _ hlen]
  exact decodeCount_encode enc dec xs rest helem

theorem pow256_32 : (256 : Nat) ^ 32 = 2 ^ 256 := by norm_num

theorem pow256_4 : (256 : Nat) ^ 4 = 2 ^ 32 := by norm_num

theorem decodeHeader_encodeHeader (h : Header) (rest : List Nat)
    (hw : wfHeader h) : decodeHeader (encodeHeader h ++ rest) = some (h, rest) := by
  obtain ⟨h1, h2, h3, h4, h5, h6⟩ := hw
  unfold encodeHeader decodeHeader
  simp only [List.append_assoc]
  rw [decodeLE_encodeLE 32 _ _ (by rw [pow256_32]; exact h1)]
  simp only [Option.some_bind]
  rw [decodeCompact_encodeCompact _ _ h2]
  simp only [Option.some_bind]
  rw [decodeLE_encodeLE 32 _ _ (by rw [pow256_32]; exact h3)]
  simp only [Option.some_bind]
  rw [decodeLE_encodeLE 32 _ _ (by rw [pow256_32]; exact h4)]
  simp only [Option.some_bind]
  rw [decodeVec_encodeVec encodeBytes decodeBytes _ _ h5
    (fun d hd r => decodeBytes_encodeBytes d r (h6 d hd))]
  simp only [Option.some_bind]

theorem decodeBlock_encodeBlock (b : Block) (rest : List Nat)
    (hw : wfBlock b) : decodeBlock (encodeBlock b ++ rest) = some (b, rest) := by
  obtain ⟨h1, h2, h3⟩ := hw
  unfold encodeBlock decodeBlock
  rw [List.append_assoc, decodeHeader_encodeHeader _ _ h1]
  simp only [Option.some_bind]
  rw [decodeVec_encodeVec encodeBytes decodeBytes _ _ h2
    (fun e he r => decodeBytes_encodeBytes e r (h3 e he))]
  simp only [Option.some_bind]

theorem decodeSelect_encodeSelect (sel : TryStateSelect) (rest : List Nat)
    (hw : wfSelect sel) : decodeSelect (encodeSelect sel ++ rest) = some (sel, rest) := by
  cases sel with
  | all => rfl
  | none => rfl
  | pallets names =>
    obtain ⟨hl, hp⟩ := hw
    simp only [encodeSelect, List.cons_append, decodeSelect]
    rw [decodeVec_encodeVec encodeBytes decodeBytes _ _ hl
      (fun p hpm r => decodeBytes_encodeBytes p r (hp p hpm))]
    simp only [Option.some_bind]
  | roundRobin n =>
    simp only [encodeSelect, List.cons_append, decodeSelect]
    rw [decodeLE_encodeLE 4 _ _ (by rw [pow256_4]; exact hw)]
    simp only [Option.some_bind]

theorem decodePayload_encodePayload (b : Block) (src sc : Bool)
    (sel : TryStateSelect) (rest : List Nat) (hb : wfBlock b)
    (hs : wfSelect sel) :
    decodePayload (encodePayload b src sc sel ++ rest) =
      some ((b, src, sc, sel), rest) := by
  unfold encodePayload decodePayload
  simp only [List.append_assoc]
  rw [decodeBlock_encodeBlock _ _ hb]
  simp only [Option.some_bind]
  rw [decodeBool_encodeBool]
  simp only [Option.some_bind]
  rw [decodeBool_encodeBool]
  simp only [Option.some_bind]
  rw [decodeSelect_encodeSelect _ _ hs]
  simp only [Option.some_bind]

/-! ## Helper lemmas about the orchestrator -/

theorem resolve_uri_live (ts : TryStateSelect) (bwsu : Option String)
    (ls : LiveState) :
    Command.resolve_block_ws_uri ⟨ts, bwsu, State.live ls⟩ =
      Except.ok (bwsu.getD ls.uri) := by
  cases bwsu <;> rfl

theorem resolveLive_of_none (env : ChainEnv) (uri : String) (ls : LiveState)
    (h : ls.«at» = Option.none) :
    resolveLive env uri ls =
      ([NetEvent.headerQuery Option.none],
       { uri := uri, «at» := some (env.headerHash env.bestHeader),
         pallet := [], hashed_prefixes := [], child_tree := false }) := by
  unfold resolveLive
  rw [h]

theorem resolveLive_of_some (env : ChainEnv) (uri : String) (ls : LiveState)
    (a : Nat) (h : ls.«at» = some a) : resolveLive env uri ls = ([], ls) := by
  unfold resolveLive
  rw [h]

theorem lookupHeader_mem (env : ChainEnv) (h : Nat) (hdr : Header)
    (hl : lookupHeader env h = some hdr) : (h, hdr) ∈ env.headers := by
  unfold lookupHeader at hl
  cases hf : env.headers.find? fun p => p.1 == h with
  | none => rw [hf] at hl; simp at hl
  | some pr =>
    rw [hf] at hl
    simp at hl
    have hmem := List.mem_of_find?_eq_some hf
    have hkey := List.find?_some hf
    have h1 : pr.1 = h := by simpa using hkey
    have h2 : pr.2 = hdr := by simpa using hl
    have : pr = (h, hdr) := by
      cases pr
      simp_all
    rw [this] at hmem
    exact hmem

/-- Full inversion of a successful `run`: recover every intermediate value
of the flow from the final result. -/
theorem run_ok_inv (env : ChainEnv) (shared : SharedParams) (cmd : Command)
    (evs : List NetEvent) (r : RunResult)
    (hrun : run env shared cmd = (evs, RunOutcome.ok r)) :
    ∃ ls uri header,
      cmd.state = State.live ls ∧
      cmd.resolve_block_ws_uri = Except.ok uri ∧
      r.resolvedLiveState = (resolveLive env uri ls).2 ∧
      r.resolvedLiveState.«at» = some r.executeAt ∧
      lookupHeader env r.executeAt = some header ∧
      r.prevState = { r.resolvedLiveState with «at» := some header.parent_hash } ∧
      r.runtimeChecks = { name_matches := !shared.disable_spec_name_check,
                          version_increases := false,
                          try_runtime_feature_enabled := true } ∧
      lookupBlock env r.executeAt = some r.fetchedBlock ∧
      r.normalizedBlock = normalizeBlock r.fetchedBlock ∧
      r.payload = encodePayload r.normalizedBlock false false cmd.try_state ∧
      evs = NetEvent.wsConnect uri :: (resolveLive env uri ls).1 ++
        [NetEvent.headerQuery (some r.executeAt),
         NetEvent.stateFetch header.parent_hash,
         NetEvent.blockQuery r.executeAt] := by
  unfold run at hrun
  cases hu : cmd.resolve_block_ws_uri with
  | error msg => rw [hu] at hrun; simp at hrun
  | ok uri =>
    rw [hu] at hrun
    cases hst : cmd.state with
    | snap p => rw [hst] at hrun; simp at hrun
    | live ls =>
      rw [hst] at hrun
      simp only [] at hrun
      cases hat : (resolveLive env uri ls).2.«at» with
      | none => rw [hat] at hrun; simp at hrun
      | some execute_at =>
        rw [hat] at hrun
        simp only [] at hrun
        cases hh : lookupHeader env execute_at with
        | none => rw [hh] at hrun; simp at hrun
        | some header =>
          rw [hh] at hrun
          simp only [] at hrun
          cases hb : lookupBlock env execute_at with
          | none => rw [hb] at hrun; simp at hrun
          | some block =>
            rw [hb] at hrun
            simp only [] at hrun
            rw [Prod.mk.injEq] at hrun
            obtain ⟨hevs, hout⟩ := hrun
            have hr : r = { resolvedLiveState := (resolveLive env uri ls).2
                            executeAt := execute_at
                            prevState := { (resolveLive env uri ls).2 with
                              «at» := some header.parent_hash }
                            runtimeChecks :=
                              { name_matches := !shared.disable_spec_name_check
                                version_increases := false
                                try_runtime_feature_enabled := true }
                            entryPoint := entryPointName
                            fetchedBlock := block
                            normalizedBlock := normalizeBlock block
                            payload := encodePayload (normalizeBlock block)
                              false false cmd.try_state } := by
              cases hout
              rfl
            subst hr
            refine ⟨ls, uri, header, rfl, rfl, rfl, hat, hh, rfl, rfl, hb, rfl,
              rfl, ?_⟩
            rw [← hevs]
            simp

/-! ## Claim theorems -/

/-- C1: in the execute-block flow, the execute target is the block at the
resolved live-state identifier, the externalities baseline is that block's
parent, and on a well-formed chain the execute target's number is exactly
one above the baseline's number. -/
theorem execute_block_target_one_ahead (env : ChainEnv) (shared : SharedParams)
    (cmd : Command) (evs : List NetEvent) (r : RunResult) (hdr phdr : Header)
    (hwf : chainWF env)
    (hrun : run env shared cmd = (evs, RunOutcome.ok r))
    (hhdr : lookupHeader env r.executeAt = some hdr)
    (hphdr : lookupHeader env hdr.parent_hash = some phdr) :
    r.resolvedLiveState.«at» = some r.executeAt ∧
    r.prevState.«at» = some hdr.parent_hash ∧
    hdr.number = phdr.number + 1 := by
  obtain ⟨ls, uri, header, _, _, _, hat, hh, hprev, _, _, _, _, _⟩ :=
    run_ok_inv env shared cmd evs r hrun
  have hhd : header = hdr := by
    rw [hh] at hhdr
    exact Option.some.inj hhdr
  subst hhd
  refine ⟨hat, ?_, ?_⟩
  · rw [hprev]
  · exact hwf (r.executeAt, header) (lookupHeader_mem env _ _ hh)
      (header.parent_hash, phdr) (lookupHeader_mem env _ _ hphdr) rfl

/-- C1 witness: the concrete chain with best block `100` satisfies the
one-ahead invariant. -/
theorem execute_block_target_one_ahead_witness :
    resNoAt.resolvedLiveState.«at» = some resNoAt.executeAt ∧
    resNoAt.prevState.«at» = some hdr100.parent_hash ∧
    hdr100.number = hdr99.number + 1 :=
  execute_block_target_one_ahead env0 shared0 cmdNoAt evsNoAt resNoAt hdr100
    hdr99 (by decide) (by decide) (by decide) (by decide)

/-- C2: normalization removes exactly the last digest item: digest length
drops from `k` to `k - 1` and every other header field and the extrinsics
are unchanged; the normalized block used by the flow is exactly
`normalizeBlock` of the fetched block. -/
theorem execute_block_normalize_digest (b : Block) (k : Nat)
    (hk : b.header.digest.length = k) (h1 : 1 ≤ k) :
    (normalizeBlock b).header.digest.length = k - 1 ∧
    (normalizeBlock b).header.parent_hash = b.header.parent_hash ∧
    (normalizeBlock b).header.number = b.header.number ∧
    (normalizeBlock b).header.state_root = b.header.state_root ∧
    (normalizeBlock b).header.extrinsics_root = b.header.extrinsics_root ∧
    (normalizeBlock b).extrinsics = b.extrinsics ∧
    ∀ env shared cmd evs r, run env shared cmd = (evs, RunOutcome.ok r) →
      r.normalizedBlock = normalizeBlock r.fetchedBlock := by
  refine ⟨?_, rfl, rfl, rfl, rfl, rfl, ?_⟩
  · simp [normalizeBlock, Block.deconstruct, Block.new, List.length_dropLast, hk]
  · intro env shared cmd evs r hrun
    obtain ⟨_, _, _, _, _, _, _, _, _, _, _, hnb, _, _⟩ :=
      run_ok_inv env shared cmd evs r hrun
    exact hnb

/-- C2 witness: the concrete fetched block with digest length 2. -/
theorem execute_block_normalize_digest_witness :
    (normalizeBlock block100).header.digest.length = 2 - 1 ∧
    (normalizeBlock block100).header.parent_hash = block100.header.parent_hash ∧
    (normalizeBlock block100).header.number = block100.header.number ∧
    (normalizeBlock block100).header.state_root = block100.header.state_root ∧
    (normalizeBlock block100).header.extrinsics_root =
      block100.header.extrinsics_root ∧
    (normalizeBlock block100).extrinsics = block100.extrinsics ∧
    ∀ env shared cmd evs r, run env shared cmd = (evs, RunOutcome.ok r) →
      r.normalizedBlock = normalizeBlock r.fetchedBlock :=
  execute_block_normalize_digest block100 2 rfl (by decide)

/-- C3: the assembled payload is the fixed-order encoding of
`(normalized_block, false, false, try_state)` and decoding the encoded
payload recovers exactly that tuple, for every selector variant. -/
theorem execute_block_payload_roundtrip :
    (∀ (b : Block) (sel : TryStateSelect), wfBlock b → wfSelect sel →
      decodePayload (encodePayload b false false sel) =
        some ((b, false, false, sel), [])) ∧
    ∀ env shared cmd evs r, run env shared cmd = (evs, RunOutcome.ok r) →
      r.payload = encodePayload r.normalizedBlock false false cmd.try_state := by
  constructor
  · intro b sel hb hs
    have h := decodePayload_encodePayload b false false sel [] hb hs
    simpa using h
  · intro env shared cmd evs r hrun
    obtain ⟨_, _, _, _, _, _, _, _, _, _, _, _, hpl, _⟩ :=
      run_ok_inv env shared cmd evs r hrun
    exact hpl

/-- C3 witness: round trip at a concrete block for each selector variant,
and the concrete run's payload shape. -/
theorem execute_block_payload_roundtrip_witness :
    decodePayload (encodePayload block100 false false TryStateSelect.all) =
      some ((block100, false, false, TryStateSelect.all), []) ∧
    decodePayload (encodePayload block100 false false TryStateSelect.none) =
      some ((block100, false, false, TryStateSelect.none), []) ∧
    decodePayload
        (encodePayload block100 false false (TryStateSelect.pallets [[83], [84]])) =
      some ((block100, false, false, TryStateSelect.pallets [[83], [84]]), []) ∧
    decodePayload
        (encodePayload block100 false false (TryStateSelect.roundRobin 3)) =
      some ((block100, false, false, TryStateSelect.roundRobin 3), []) ∧
    resNoAt.payload =
      encodePayload resNoAt.normalizedBlock false false cmdNoAt.try_state :=
  ⟨execute_block_payload_roundtrip.1 block100 TryStateSelect.all (by decide)
      (by decide),
   execute_block_payload_roundtrip.1 block100 TryStateSelect.none (by decide)
      (by decide),
   execute_block_payload_roundtrip.1 block100 (TryStateSelect.pallets [[83], [84]])
      (by decide) (by decide),
   execute_block_payload_roundtrip.1 block100 (TryStateSelect.roundRobin 3)
      (by decide) (by decide),
   execute_block_payload_roundtrip.2 env0 shared0 cmdNoAt evsNoAt resNoAt
      (by decide)⟩

/-- C4 counterexample: with a snapshot state and an explicit ws uri the
flow panics (it does not return an `Unsupported` error value) and one
network call — the ws connection — has already been made. -/
theorem execute_block_nonlive_unsupported_cex :
    run env0 shared0 cmdSnapUri =
      ([NetEvent.wsConnect "ws://127.0.0.1:9944"],
       RunOutcome.panicked liveOnlyMsg) ∧
    (run env0 shared0 cmdSnapUri).2 ≠ RunOutcome.err RunError.unsupported ∧
    (run env0 shared0 cmdSnapUri).1.length = 1 := by
  refine ⟨by decide, by decide, by decide⟩

/-- C4 amended: for every non-live state spec the flow panics — with the
`unreachable!` message after the ws connection when an explicit uri is
given, and already during uri resolution when it is not. -/
theorem execute_block_nonlive_panics (env : ChainEnv) (shared : SharedParams)
    (ts : TryStateSelect) (p u : String) :
    run env shared ⟨ts, some u, State.snap p⟩ =
      ([NetEvent.wsConnect u], RunOutcome.panicked liveOnlyMsg) ∧
    run env shared ⟨ts, Option.none, State.snap p⟩ =
      ([], RunOutcome.panicked uriRequiredMsg) :=
  ⟨rfl, rfl⟩

/-- C5: with a live state and no explicit block identifier, the flow's
first two network interactions are the ws connection and a header query
with no argument, and the hash of the best header becomes the resolved
identifier. -/
theorem execute_block_best_header_resolution (env : ChainEnv)
    (shared : SharedParams) (ts : TryStateSelect) (bwsu : Option String)
    (ls : LiveState) (evs : List NetEvent) (r : RunResult)
    (hat : ls.«at» = Option.none)
    (hrun : run env shared ⟨ts, bwsu, State.live ls⟩ = (evs, RunOutcome.ok r)) :
    evs.take 2 = [NetEvent.wsConnect (bwsu.getD ls.uri),
      NetEvent.headerQuery Option.none] ∧
    r.resolvedLiveState.«at» = some (env.headerHash env.bestHeader) := by
  obtain ⟨ls', uri, header, hst, hu, hres, _, _, _, _, _, _, _, hevs⟩ :=
    run_ok_inv env shared _ evs r hrun
  have hls' : State.live ls = State.live ls' := hst
  have hls : ls' = ls := by
    injection hls' with h
    exact h.symm
  rw [hls] at hres hevs
  have hu' : (Except.ok (bwsu.getD ls.uri) : Except String String) =
      Except.ok uri := by
    rw [← resolve_uri_live ts bwsu ls]
    exact hu
  have huri : uri = bwsu.getD ls.uri := by
    injection hu' with h
    exact h.symm
  rw [huri] at hres hevs
  rw [resolveLive_of_none env _ ls hat] at hres hevs
  constructor
  · rw [hevs]
    rfl
  · rw [hres]

/-- C5 witness: the concrete no-`--at` run resolves to the best header's
hash after a header query with no argument. -/
theorem execute_block_best_header_resolution_witness :
    evsNoAt.take 2 = [NetEvent.wsConnect
      ((Option.none : Option String).getD lsNoAt.uri),
      NetEvent.headerQuery Option.none] ∧
    resNoAt.resolvedLiveState.«at» = some (env0.headerHash env0.bestHeader) :=
  execute_block_best_header_resolution env0 shared0 TryStateSelect.all
    Option.none lsNoAt evsNoAt resNoAt rfl (by decide)

/-- C6 counterexample: a snapshot state without an explicit uri makes the
flow panic during uri resolution — it does not return a
`ConfigurationError` error value. -/
theorem execute_block_snapshot_uri_cex :
    run env0 shared0 cmdSnapNoUri = ([], RunOutcome.panicked uriRequiredMsg) ∧
    (run env0 shared0 cmdSnapNoUri).2 ≠
      RunOutcome.err RunError.configurationError ∧
    Command.resolve_block_ws_uri cmdSnapNoUri = Except.error uriRequiredMsg := by
  refine ⟨by decide, by decide, rfl⟩

/-- C6 amended: the explicit flag wins for every state variant, a live
state supplies its own uri, and a snapshot without the flag makes the flow
panic (no error value is returned, and no network call is made). -/
theorem execute_block_uri_resolution (ts : TryStateSelect) (u p : String)
    (ls : LiveState) (env : ChainEnv) (shared : SharedParams) :
    Command.resolve_block_ws_uri ⟨ts, some u, State.snap p⟩ = Except.ok u ∧
    Command.resolve_block_ws_uri ⟨ts, some u, State.live ls⟩ = Except.ok u ∧
    Command.resolve_block_ws_uri ⟨ts, Option.none, State.live ls⟩ =
      Except.ok ls.uri ∧
    Command.resolve_block_ws_uri ⟨ts, Option.none, State.snap p⟩ =
      Except.error uriRequiredMsg ∧
    run env shared ⟨ts, Option.none, State.snap p⟩ =
      ([], RunOutcome.panicked uriRequiredMsg) :=
  ⟨rfl, rfl, rfl, rfl, rfl⟩

/-- C7: every successful run builds externalities with
`name_matches = !disable_spec_name_check`, `version_increases = false` and
`try_runtime_feature_enabled = true`. -/
theorem execute_block_runtime_checks (env : ChainEnv) (shared : SharedParams)
    (cmd : Command) (evs : List NetEvent) (r : RunResult)
    (hrun : run env shared cmd = (evs, RunOutcome.ok r)) :
    r.runtimeChecks =
      { name_matches := !shared.disable_spec_name_check
        version_increases := false
        try_runtime_feature_enabled := true } := by
  obtain ⟨_, _, _, _, _, _, _, _, _, hrc, _, _, _, _⟩ :=
    run_ok_inv env shared cmd evs r hrun
  exact hrc

/-- C7 witness: the concrete run with the spec-name check enabled. -/
theorem execute_block_runtime_checks_witness :
    resNoAt.runtimeChecks =
      { name_matches := !shared0.disable_spec_name_check
        version_increases := false
        try_runtime_feature_enabled := true } :=
  execute_block_runtime_checks env0 shared0 cmdNoAt evsNoAt resNoAt (by decide)

/-- C8: the parachain inherent-data provider injects exactly its parent
header together with empty bitfields, backed candidates and disputes; the
injected datum can be read back unchanged. -/
theorem para_inherent_provider_structural_placeholders (ph : Header)
    (d : InherentData)
    (hfresh : (d.data.find? fun pr =>
      pr.1 == PARACHAINS_INHERENT_IDENTIFIER) = Option.none) :
    ParaInherentDataProvider.provide_inherent_data ⟨ph⟩ d =
      Except.ok { data := d.data ++ [(PARACHAINS_INHERENT_IDENTIFIER,
        { bitfields := [], backed_candidates := [], disputes := [],
          parent_header := ph })] } ∧
    InherentData.para_inherent_data { data := d.data ++
        [(PARACHAINS_INHERENT_IDENTIFIER,
          { bitfields := [], backed_candidates := [], disputes := [],
            parent_header := ph })] } =
      some { bitfields := [], backed_candidates := [], disputes := [],
             parent_header := ph } := by
  constructor
  · unfold ParaInherentDataProvider.provide_inherent_data InherentData.put_data
    rw [hfresh]
    rfl
  · unfold InherentData.para_inherent_data
    rw [List.find?_append, hfresh]
    rfl

/-- C8 witness: providing into an empty inherent set stores the
placeholder-only payload for the concrete parent header. -/
theorem para_inherent_provider_structural_placeholders_witness :
    ParaInherentDataProvider.provide_inherent_data ⟨hdr100⟩ ⟨[]⟩ =
      Except.ok { data := ([] : List (String × ParasInherentData)) ++
        [(PARACHAINS_INHERENT_IDENTIFIER,
          { bitfields := [], backed_candidates := [], disputes := [],
            parent_header := hdr100 })] } ∧
    InherentData.para_inherent_data { data :=
        ([] : List (String × ParasInherentData)) ++
        [(PARACHAINS_INHERENT_IDENTIFIER,
          { bitfields := [], backed_candidates := [], disputes := [],
            parent_header := hdr100 })] } =
      some { bitfields := [], backed_candidates := [], disputes := [],
             parent_header := hdr100 } :=
  para_inherent_provider_structural_placeholders hdr100 ⟨[]⟩ rfl

/-- C9: with no explicit identifier the live state is rebuilt with default
(empty) pallet, hashed-prefix and child-tree filters and the resolved uri;
with an explicit identifier the user's live state is kept unchanged. -/
theorem execute_block_filter_handling (env : ChainEnv) (shared : SharedParams)
    (ts : TryStateSelect) (bwsu : Option String) (ls : LiveState)
    (evs : List NetEvent) (r : RunResult)
    (hrun : run env shared ⟨ts, bwsu, State.live ls⟩ = (evs, RunOutcome.ok r)) :
    (ls.«at» = Option.none →
      r.resolvedLiveState =
        { uri := bwsu.getD ls.uri
          «at» := some (env.headerHash env.bestHeader)
          pallet := [], hashed_prefixes := [], child_tree := false }) ∧
    ∀ a, ls.«at» = some a → r.resolvedLiveState = ls := by
  obtain ⟨ls', uri, header, hst, hu, hres, _, _, _, _, _, _, _, _⟩ :=
    run_ok_inv env shared _ evs r hrun
  have hls' : State.live ls = State.live ls' := hst
  have hls : ls' = ls := by
    injection hls' with h
    exact h.symm
  rw [hls] at hres
  have hu' : (Except.ok (bwsu.getD ls.uri) : Except String String) =
      Except.ok uri := by
    rw [← resolve_uri_live ts bwsu ls]
    exact hu
  have huri : uri = bwsu.getD ls.uri := by
    injection hu' with h
    exact h.symm
  rw [huri] at hres
  constructor
  · intro hnone
    rw [hres, resolveLive_of_none env _ ls hnone]
  · intro a hsome
    rw [hres, resolveLive_of_some env _ ls a hsome]

/-- C9 witness: the concrete no-`--at` run discards the user's filters and
the concrete `--at 100` run keeps them. -/
theorem execute_block_filter_handling_witness :
    resNoAt.resolvedLiveState =
      { uri := (Option.none : Option String).getD lsNoAt.uri
        «at» := some (env0.headerHash env0.bestHeader)
        pallet := [], hashed_prefixes := [], child_tree := false } ∧
    resAt100.resolvedLiveState = lsAt100 :=
  ⟨(execute_block_filter_handling env0 shared0 TryStateSelect.all Option.none
      lsNoAt evsNoAt resNoAt (by decide)).1 rfl,
   (execute_block_filter_handling env0 shared0 TryStateSelect.all Option.none
      lsAt100 evsAt100 resAt100 (by decide)).2 100 rfl⟩

/-- C10: digest stripping is total — on an empty digest the pop is a
no-op and the normalized block equals the fetched block. -/
theorem normalize_block_empty_digest_noop (b : Block)
    (h : b.header.digest = []) : normalizeBlock b = b := by
  cases b with
  | mk hd xts =>
    cases hd
    simp_all [normalizeBlock, Block.deconstruct, Block.new]

/-- C10 witness: normalization of a concrete block with an empty digest. -/
theorem normalize_block_empty_digest_noop_witness :
    normalizeBlock blockNoDigest = blockNoDigest :=
  normalize_block_empty_digest_noop blockNoDigest rfl

end TryRuntime
